import Mathlib

/-!
# Verification of `Helper.py`

A shallow embedding of the MyNEU balance-scraping script `src/Helper.py`.
Python strings are modelled as Lean `String`s (operated on through their
character lists), Python's `None`-able results as `Option`, and raising
code as `Except String`.  File access and the live browser session are
modelled by explicit data given as arguments (a path → contents map, lists
of DOM elements).
-/

namespace Helper

/-! ## Python string primitives -/

/-- First index at which `sub` occurs in `s` (Python `s.find(sub)` when
    wrapped into an `Int` below). -/
def findSubIdx (sub : List Char) : List Char → Option Nat
  | [] => if sub.isEmpty then some 0 else none
  | c :: t =>
    if sub.isPrefixOf (c :: t) then some 0
    else (findSubIdx sub t).map (· + 1)

/-- Last index at which `sub` occurs in `s` (Python `s.rfind(sub)` when
    wrapped into an `Int` below). -/
def rfindSubIdx (sub : List Char) : List Char → Option Nat
  | [] => if sub.isEmpty then some 0 else none
  | c :: t =>
    match rfindSubIdx sub t with
    | some i => some (i + 1)
    | none => if sub.isPrefixOf (c :: t) then some 0 else none

/-- Python's substring test `sub in s`. -/
def containsSub (s sub : String) : Bool :=
  (findSubIdx sub.data s.data).isSome

/-- Python `s.find(sub)`: first index of occurrence, `-1` if absent. -/
def pyFind (s sub : String) : Int :=
  match findSubIdx sub.data s.data with
  | some i => (i : Int)
  | none => -1

/-- Python `s.rfind(sub)`: last index of occurrence, `-1` if absent. -/
def pyRFind (s sub : String) : Int :=
  match rfindSubIdx sub.data s.data with
  | some i => (i : Int)
  | none => -1

/-- Resolve a (possibly negative) Python slice endpoint against length `n`. -/
def pySliceIdx (i : Int) (n : Nat) : Nat :=
  if i < 0 then ((n : Int) + i).toNat else min i.toNat n

/-- Python slice `l[a:b]` on a list, with Python's clamping and negative
    index handling. -/
def pySliceList (l : List α) (a b : Int) : List α :=
  (l.take (pySliceIdx b l.length)).drop (pySliceIdx a l.length)

/-- Python slice `s[a:b]` on a string. -/
def pySlice (s : String) (a b : Int) : String :=
  ⟨pySliceList s.data a b⟩

/-- Python `s.lower()` (ASCII, as used by the script). -/
def pyLower (s : String) : String :=
  ⟨s.data.map Char.toLower⟩

/-- Python `s.strip()`: remove whitespace from both ends. -/
def pyStrip (s : String) : String :=
  ⟨((s.data.dropWhile Char.isWhitespace).reverse.dropWhile
      Char.isWhitespace).reverse⟩

/-- One step of Python `s.title()`: upper-case a letter that follows a
    non-letter, lower-case a letter that follows a letter. -/
def titleCaseAux : Bool → List Char → List Char
  | _, [] => []
  | prevAlpha, c :: t =>
    (if c.isAlpha then (if prevAlpha then c.toLower else c.toUpper) else c)
      :: titleCaseAux c.isAlpha t

/-- Python `s.title()` (ASCII, as used by the script). -/
def titleCase (s : String) : String :=
  ⟨titleCaseAux false s.data⟩

/-! ## `get_login_credentials` (src/Helper.py lines 19–29)

The filesystem is modelled as a partial map from path to file contents;
`os.path.exists` holds exactly when the map is defined.  Python
`readlines` splits the contents after every newline, keeping the newline
on each line and dropping a trailing empty rest. -/

def readlinesAux (cur : List Char) : List Char → List (List Char)
  | [] => if cur.isEmpty then [] else [cur.reverse]
  | c :: t =>
    if c = '\n' then (cur.reverse ++ ['\n']) :: readlinesAux [] t
    else readlinesAux (c :: cur) t

/-- Python `f.readlines()` on the contents of a file. -/
def readlines (s : String) : List String :=
  (readlinesAux [] s.data).map List.asString

/-- `get_login_credentials(file_name)`: assert the file exists, read its
    lines, unpack exactly two of them, and return them stripped. -/
def get_login_credentials (fs : String → Option String) (file_name : String) :
    Except String (String × String) :=
  match fs file_name with
  | none => .error (file_name ++ " does not exist!")
  | some contents =>
    match readlines contents with
    | [username, password] => .ok (pyStrip username, pyStrip password)
    | _ => .error "ValueError: unpacking mismatch"

/-! ## `correct_link` (src/Helper.py lines 128–145) -/

/-- `correct_link(link_url)`: if the link is a `javascript:OpenWinNEU('…')`
    wrapper, extract the URL inside the parentheses (raising when the string
    holds no absolute URL); otherwise return the link unchanged. -/
def correct_link (link_url : String) : Except String String :=
  if containsSub link_url "javascript:OpenWinNEU" then
    if ¬ containsSub link_url "http://" ∧ ¬ containsSub link_url "https://" then
      .error ("This is javascript that does not have"
               ++ " a url. There is nothing I can do")
    else
      let start := pyFind link_url "(" + 2
      let stop := pyRFind link_url ")" - 1
      .ok (pySlice link_url start stop)
  else
    .ok link_url

/-- The spec's description of the extraction: the substring strictly between
    the first `(` at index `p` and the last `)` at index `q`, with one
    leading and one trailing character trimmed. -/
def specExtract (s : String) (p q : Nat) : String :=
  ⟨((pySliceList s.data (p + 1) q).drop 1).dropLast⟩

/-! ## DOM elements

A selenium `WebElement` is modelled by its visible text plus a tag that
keeps distinct elements distinct. -/

structure El where
  text : String
  uid : Nat
deriving DecidableEq

/-- A tab container entry of class `taboff` (a non-active top-level tab);
    `tab` is the inner element with id `"tab"` whose text the code reads
    and whose node the code clicks. -/
structure TabOff where
  tab : El
deriving DecidableEq

/-! ## `get_self_service_page` (src/Helper.py lines 56–75)

The input is the list of `taboff`-class tabs (the non-active tabs) found
inside the `tabs_tda` container, in document order.  The result is the
element the code clicks, or the raised exception message. -/

def get_self_service_page (taboffs : List TabOff) : Except String El :=
  match taboffs.find? (fun t => t.tab.text == "Self-Service") with
  | some t => .ok t.tab
  | none => .error "Couldn't find Self-Service Tag"

/-! ## `find_link` (src/Helper.py lines 118–126)

The input is the list of `a`-tag elements on the page, in document
order. -/

def find_link (links : List El) (link_name : String) : Option El :=
  links.find? (fun l => pyLower l.text == pyLower link_name)

/-! ## `get_self_service_sections` (src/Helper.py lines 77–101) -/

/-- Lookup in a Python dict built by inserting the pairs of `l` in order:
    a later pair with the same key overwrites an earlier one. -/
def dictOf (l : List (String × α)) : String → Option α :=
  fun k => (l.reverse.find? (fun p => p.1 == k)).map Prod.snd

/-- `get_self_service_sections(driver)`: the two families of section
    headers found under the `uportal-background-content` row —
    `sections1` the `uportal-head14-bold` elements, `sections2` the
    `Taupe` elements (whose all-caps labels are title-cased) — merged by
    `dict(sections1, **sections2)`. -/
def get_self_service_sections (sections1 sections2 : List El) :
    String → Option El :=
  dictOf ((sections1.map fun e => (e.text, e))
          ++ (sections2.map fun e => (titleCase e.text, e)))

/-! ## `grouper` and the balance scraper (src/Helper.py lines 14–17 and
147–166)

`grouper(iterable, n, fillvalue=None)` is `zip_longest` over `n` copies of
one iterator: it chunks the sequence into groups of `n`, padding the last
group with the fill value (`none` models Python `None`). -/

def grouperGo (n : Nat) : Nat → List α → List (List (Option α))
  | _, [] => []
  | 0, _ :: _ => []
  | fuel + 1, a :: t =>
    (((a :: t).take n).map some ++ List.replicate (n - (a :: t).length) none)
      :: grouperGo n fuel ((a :: t).drop n)

/-- `grouper(iterable, n)`: the fuel argument of `grouperGo` only bounds
    the recursion depth and never runs out, since each step consumes
    `n ≥ 1` elements. -/
def grouper (l : List α) (n : Nat) : List (List (Option α)) :=
  if n = 0 then [] else grouperGo n l.length l

/-- A nested data table inside a blockquote; `contentCells` are its
    `Content`-class cells in document order. -/
structure Table where
  contentCells : List El
deriving DecidableEq

/-- A `blockquote` element: its `Title`-class elements and its nested
    tables. -/
structure Blockquote where
  titleEls : List El
  tables : List Table
deriving DecidableEq

/-- The state of the browser session a scraping call sees: the page title
    and the page's `blockquote` elements. -/
structure Driver where
  title : String
  blockquotes : List Blockquote
deriving DecidableEq

/-- The dict comprehension
    `{k.text: v.text for k, v in grouper(..., 2)}` evaluated left to
    right: accessing `.text` on the `None` fill value of an odd final
    group raises. -/
def collectPairs : List (List (Option El)) →
    Except String (List (String × String))
  | [] => .ok []
  | g :: gs =>
    match g with
    | [some k, some v] =>
      match collectPairs gs with
      | .ok rest => .ok ((k.text, v.text) :: rest)
      | .error e => .error e
    | [_, _] => .error "AttributeError: NoneType has no attribute text"
    | _ => .error "ValueError: unpacking mismatch"

/-- The label/value pairs scraped from one table's `Content` cells. -/
def tableContents (cells : List El) :
    Except String (List (String × String)) :=
  collectPairs (grouper cells 2)

/-- The inner `for element2 in element1.find_elements_by_tag_name("table")`
    loop, threading the accumulated `contents` pairs. -/
def scanTables : List Table → List (String × String) →
    Except String (List (String × String))
  | [], acc => .ok acc
  | tb :: rest, acc =>
    match tableContents tb.contentCells with
    | .ok ps => scanTables rest (acc ++ ps)
    | .error e => .error e

/-- The outer `for element1 in driver.find_elements_by_tag_name
    ("blockquote")` loop: only blockquotes holding a `Title`-class
    element contribute. -/
def scanBlockquotes : List Blockquote → List (String × String) →
    Except String (List (String × String))
  | [], acc => .ok acc
  | bq :: rest, acc =>
    if bq.titleEls.isEmpty then scanBlockquotes rest acc
    else
      match scanTables bq.tables acc with
      | .ok acc2 => scanBlockquotes rest acc2
      | .error e => .error e

/-- `get_balance_data(driver)`: accumulate the label/value pairs of every
    nested table of every titled blockquote (`contents.update`). -/
def get_balance_data (driver : Driver) :
    Except String (List (String × String)) :=
  scanBlockquotes driver.blockquotes []

/-- `get_dining_dollars(driver)`: assert the page title, scrape the
    balance table, and `.get` the fixed field label (`none` models a
    missing label). -/
def get_dining_dollars (driver : Driver) : Except String (Option String) :=
  if driver.title = "myNEU: View HuskyCard Balances" then
    match get_balance_data driver with
    | .ok data => .ok (dictOf data "Spring 15 Meal Plan")
    | .error e => .error e
  else
    .error "You need to be on the Husky Account Balance Page!"

/-- The spec's pairing of content-cell texts two at a time in document
    order (label, value, label, value, …). -/
def pairUpTexts : List El → List (String × String)
  | [] => []
  | [_] => []
  | a :: b :: t => (a.text, b.text) :: pairUpTexts t

/-! ## Lemmas about the string primitives -/

theorem rfindSubIdx_add_length_le (sub l : List Char) (q : Nat)
    (h : rfindSubIdx sub l = some q) : q + sub.length ≤ l.length := by
  induction l generalizing q with
  | nil =>
    unfold rfindSubIdx at h
    by_cases hs : sub.isEmpty
    · rw [if_pos hs] at h
      cases h
      simp [List.isEmpty_iff.mp hs]
    · rw [if_neg hs] at h
      cases h
  | cons c t ih =>
    unfold rfindSubIdx at h
    cases hrec : rfindSubIdx sub t with
    | some i =>
      rw [hrec] at h
      cases h
      have := ih i hrec
      simp only [List.length_cons]
      omega
    | none =>
      rw [hrec] at h
      by_cases hp : sub.isPrefixOf (c :: t)
      · rw [if_pos hp] at h
        cases h
        have := (List.isPrefixOf_iff_prefix.mp hp).length_le
        omega
      · rw [if_neg hp] at h
        cases h

theorem pySliceIdx_of_nonneg_le (p n : Nat) (h : p ≤ n) :
    pySliceIdx (p : Int) n = p := by
  unfold pySliceIdx
  rw [if_neg (by omega)]
  omega

theorem pySliceList_trim_eq (l : List Char) (p q : Nat)
    (hpq : p + 2 ≤ q) (hql : q + 1 ≤ l.length) :
    pySliceList l ((p : Nat) + 2) ((q : Int) - 1)
      = (((pySliceList l ((p : Nat) + 1) (q : Nat)).drop 1)).dropLast := by
  unfold pySliceList
  have ha : pySliceIdx ((p : Nat) + 2 : Int) l.length = p + 2 := by
    have : ((p : Nat) + 2 : Int) = ((p + 2 : Nat) : Int) := by push_cast; ring
    rw [this, pySliceIdx_of_nonneg_le _ _ (by omega)]
  have hb : pySliceIdx ((q : Int) - 1) l.length = q - 1 := by
    have : ((q : Int) - 1) = ((q - 1 : Nat) : Int) := by omega
    rw [this, pySliceIdx_of_nonneg_le _ _ (by omega)]
  have hc : pySliceIdx ((p : Nat) + 1 : Int) l.length = p + 1 := by
    have : ((p : Nat) + 1 : Int) = ((p + 1 : Nat) : Int) := by push_cast; ring
    rw [this, pySliceIdx_of_nonneg_le _ _ (by omega)]
  have hd : pySliceIdx ((q : Nat) : Int) l.length = q := by
    rw [pySliceIdx_of_nonneg_le _ _ (by omega)]
  rw [ha, hb, hc, hd, List.drop_drop, List.dropLast_eq_take]
  rw [List.length_drop, List.length_take]
  rw [List.drop_take, List.drop_take]
  rw [List.take_take]
  congr 1
  omega

/-! ## Lemmas about `grouper` and the scraped pairs -/

theorem grouperGo_fuel_irrel (n : Nat) (hn : 0 < n) :
    ∀ (fuel1 : Nat) (fuel2 : Nat) (l : List α), l.length ≤ fuel1 →
      l.length ≤ fuel2 → grouperGo n fuel1 l = grouperGo n fuel2 l := by
  intro fuel1
  induction fuel1 with
  | zero =>
    intro fuel2 l h1 _
    have : l = [] := List.length_eq_zero.mp (by omega)
    subst this
    cases fuel2 <;> rfl
  | succ f ih =>
    intro fuel2 l h1 h2
    cases l with
    | nil => cases fuel2 <;> rfl
    | cons a t =>
      cases fuel2 with
      | zero => simp at h2
      | succ f2 =>
        simp only [List.length_cons] at h1 h2
        unfold grouperGo
        have hd : ((a :: t).drop n).length ≤ f := by
          simp only [List.length_drop, List.length_cons]
          omega
        have hd2 : ((a :: t).drop n).length ≤ f2 := by
          simp only [List.length_drop, List.length_cons]
          omega
        rw [ih f2 _ hd hd2]

theorem grouperGo_succ (n fuel : Nat) (a : α) (t : List α) :
    grouperGo n (fuel + 1) (a :: t)
      = (((a :: t).take n).map some
          ++ List.replicate (n - (a :: t).length) none)
        :: grouperGo n fuel ((a :: t).drop n) := rfl

theorem grouper_cons_cons (a b : α) (t : List α) :
    grouper (a :: b :: t) 2 = [some a, some b] :: grouper t 2 := by
  unfold grouper
  rw [if_neg (by omega), if_neg (by omega)]
  have hlen : (a :: b :: t).length = t.length + 1 + 1 := by
    simp [List.length_cons]
  rw [hlen, grouperGo_succ]
  have h1 : ((a :: b :: t).take 2).map some = [some a, some b] := rfl
  have h2 : List.replicate (2 - (a :: b :: t).length) (none : Option α)
      = [] := by
    simp [List.length_cons]
  have h3 : (a :: b :: t).drop 2 = t := rfl
  rw [h1, h2, h3, List.append_nil]
  rw [grouperGo_fuel_irrel 2 (by omega) (t.length + 1) t.length t
    (by omega) (by omega)]

theorem tableContents_parity : ∀ cells : List El,
    (cells.length % 2 = 0 → tableContents cells = .ok (pairUpTexts cells))
    ∧ (cells.length % 2 = 1 →
        tableContents cells
          = .error "AttributeError: NoneType has no attribute text")
  | [] => by
    constructor
    · intro _
      rfl
    · intro h
      simp at h
  | [a] => by
    constructor
    · intro h
      simp at h
    · intro _
      rfl
  | a :: b :: t => by
    have ih := tableContents_parity t
    have hlen : (a :: b :: t).length = t.length + 2 := by
      simp [List.length_cons]
    constructor
    · intro h
      have ht : t.length % 2 = 0 := by omega
      have htc := ih.1 ht
      unfold tableContents at htc ⊢
      rw [grouper_cons_cons]
      show (match collectPairs (grouper t 2) with
        | .ok rest => Except.ok ((a.text, b.text) :: rest)
        | .error e => Except.error e) = _
      rw [htc]
      rfl
    · intro h
      have ht : t.length % 2 = 1 := by omega
      have htc := ih.2 ht
      unfold tableContents at htc ⊢
      rw [grouper_cons_cons]
      show (match collectPairs (grouper t 2) with
        | .ok rest => Except.ok ((a.text, b.text) :: rest)
        | .error e => Except.error e) = _
      rw [htc]

/-! ## Claim theorems for `correct_link` -/

/-- C3: for every input string containing the wrapper
    `javascript:OpenWinNEU` and an absolute URL, with its first `(` at
    index `p` and last `)` at index `q` (the quoted payload between them),
    `correct_link` returns the substring between the first opening
    parenthesis and the last closing parenthesis with one leading and one
    trailing quote character trimmed. -/
theorem correct_link_extracts_wrapped_url (s : String) (p q : Nat)
    (hwrap : containsSub s "javascript:OpenWinNEU" = true)
    (hurl : containsSub s "http://" = true ∨ containsSub s "https://" = true)
    (hp : findSubIdx "(".data s.data = some p)
    (hq : rfindSubIdx ")".data s.data = some q)
    (hpq : p + 2 ≤ q) :
    correct_link s = .ok (specExtract s p q) := by
  have hqlen : q + 1 ≤ s.data.length := by
    have h1 := rfindSubIdx_add_length_le ")".data s.data q hq
    have h2 : (")".data : List Char).length = 1 := rfl
    omega
  have hcond : ¬(¬ containsSub s "http://" = true
      ∧ ¬ containsSub s "https://" = true) := by
    rcases hurl with h | h <;> simp [h]
  have hfind : pyFind s "(" = (p : Int) := by unfold pyFind; rw [hp]
  have hrfind : pyRFind s ")" = (q : Int) := by unfold pyRFind; rw [hq]
  unfold correct_link
  rw [if_pos hwrap, if_neg hcond, hfind, hrfind]
  unfold pySlice specExtract
  exact congrArg _ (congrArg _ (pySliceList_trim_eq s.data p q hpq hqlen))

/-- Witness for C3 at the spec's example. -/
theorem correct_link_extracts_wrapped_url_witness :
    correct_link "javascript:OpenWinNEU('http://example.com/page')"
      = .ok "http://example.com/page" :=
  (correct_link_extracts_wrapped_url
      "javascript:OpenWinNEU('http://example.com/page')" 21 47
      rfl (Or.inl rfl) rfl rfl (by omega)).trans rfl

/-- C4: for every input string with no script-invocation wrapper,
    `correct_link` returns its input unchanged. -/
theorem correct_link_plain_url_id (s : String)
    (h : containsSub s "javascript:OpenWinNEU" = false) :
    correct_link s = .ok s := by
  unfold correct_link
  rw [if_neg (by simp [h])]

/-- Witness for C4 at the spec's example. -/
theorem correct_link_plain_url_id_witness :
    correct_link "http://example.com/page" = .ok "http://example.com/page" :=
  correct_link_plain_url_id "http://example.com/page" rfl

/-- C5 (counterexample): the code tests for `http://` in the *whole* input
    string, not in the wrapped payload.  The input
    `javascript:OpenWinNEU('notaurl') http://x` contains the wrapper, its
    payload (between the first `(` at 21 and last `)` at 31, quotes
    trimmed) is `notaurl`, which contains neither `http://` nor
    `https://`; yet `correct_link` returns a value instead of raising. -/
theorem correct_link_payload_check_cex :
    containsSub "javascript:OpenWinNEU('notaurl') http://x"
        "javascript:OpenWinNEU" = true
    ∧ findSubIdx "(".data
        "javascript:OpenWinNEU('notaurl') http://x".data = some 21
    ∧ rfindSubIdx ")".data
        "javascript:OpenWinNEU('notaurl') http://x".data = some 31
    ∧ specExtract "javascript:OpenWinNEU('notaurl') http://x" 21 31
        = "notaurl"
    ∧ containsSub "notaurl" "http://" = false
    ∧ containsSub "notaurl" "https://" = false
    ∧ correct_link "javascript:OpenWinNEU('notaurl') http://x"
        = .ok "notaurl" :=
  ⟨rfl, rfl, rfl, rfl, rfl, rfl, rfl⟩

/-- C5 (amended): for every input string containing the wrapper such that
    the whole string contains neither `http://` nor `https://`,
    `correct_link` fails with the explicit "no url" error. -/
theorem correct_link_no_url_error (s : String)
    (hwrap : containsSub s "javascript:OpenWinNEU" = true)
    (h1 : containsSub s "http://" = false)
    (h2 : containsSub s "https://" = false) :
    correct_link s
      = .error ("This is javascript that does not have"
                 ++ " a url. There is nothing I can do") := by
  unfold correct_link
  rw [if_pos hwrap, if_pos (by simp [h1, h2])]

/-- Witness for amended C5 at the spec's example. -/
theorem correct_link_no_url_error_witness :
    correct_link "javascript:OpenWinNEU('notaurl')"
      = .error ("This is javascript that does not have"
                 ++ " a url. There is nothing I can do") :=
  correct_link_no_url_error "javascript:OpenWinNEU('notaurl')" rfl rfl rfl

/-- C10 (counterexample): `correct_link` is not idempotent on non-failing
    inputs.  The wrapped input below succeeds and yields a URL that itself
    contains the wrapper text; applying `correct_link` to that result
    succeeds again but mangles it instead of returning it unchanged. -/
theorem correct_link_not_idempotent_cex :
    correct_link "javascript:OpenWinNEU('http://x?javascript:OpenWinNEU')"
      = .ok "http://x?javascript:OpenWinNEU"
    ∧ correct_link "http://x?javascript:OpenWinNEU"
      = .ok "ttp://x?javascript:OpenWinN"
    ∧ ("ttp://x?javascript:OpenWinN" : String)
      ≠ "http://x?javascript:OpenWinNEU" :=
  ⟨rfl, rfl, by decide⟩

/-- C10 (amended): `correct_link` is idempotent on every non-failing input
    whose result does not itself contain the script-invocation wrapper:
    that result is a fixed point. -/
theorem correct_link_idempotent_unwrapped (s r : String)
    (_h : correct_link s = .ok r)
    (hr : containsSub r "javascript:OpenWinNEU" = false) :
    correct_link r = .ok r := by
  unfold correct_link
  rw [if_neg (by simp [hr])]

/-- Witness for amended C10. -/
theorem correct_link_idempotent_unwrapped_witness :
    correct_link "http://example.com/page" = .ok "http://example.com/page" :=
  correct_link_idempotent_unwrapped
    "javascript:OpenWinNEU('http://example.com/page')"
    "http://example.com/page" rfl rfl

/-! ## Claim theorems for the page navigator -/

/-- C1 (counterexample): the tab comparison `tag.text == "Self-Service"`
    is case-sensitive.  A tab whose text is `self-service` — which
    case-insensitively equals `Self-Service` — is not clicked: the code
    raises instead. -/
theorem get_self_service_page_case_cex :
    pyLower "self-service" = pyLower "Self-Service"
    ∧ get_self_service_page [⟨⟨"self-service", 0⟩⟩]
        = .error "Couldn't find Self-Service Tag" :=
  ⟨rfl, rfl⟩

/-- C1 (amended): `get_self_service_page` clicks the first non-active tab
    whose visible text equals `"Self-Service"` exactly (case-sensitively). -/
theorem get_self_service_page_first_exact
    (taboffs pre post : List TabOff) (t : TabOff)
    (h : taboffs = pre ++ t :: post)
    (ht : t.tab.text = "Self-Service")
    (hpre : ∀ u ∈ pre, u.tab.text ≠ "Self-Service") :
    get_self_service_page taboffs = .ok t.tab := by
  unfold get_self_service_page
  subst h
  rw [List.find?_append]
  have h1 : pre.find? (fun u => u.tab.text == "Self-Service") = none := by
    rw [List.find?_eq_none]
    intro x hx
    simpa using hpre x hx
  have h2 : (t :: post).find? (fun u => u.tab.text == "Self-Service")
      = some t :=
    List.find?_cons_of_pos _ (by simpa using ht)
  rw [h1, h2]
  rfl

/-- Witness for amended C1. -/
theorem get_self_service_page_first_exact_witness :
    get_self_service_page
        [⟨⟨"MyNEU Central", 0⟩⟩, ⟨⟨"Self-Service", 1⟩⟩, ⟨⟨"Self-Service", 2⟩⟩]
      = .ok ⟨"Self-Service", 1⟩ :=
  get_self_service_page_first_exact _
    [⟨⟨"MyNEU Central", 0⟩⟩] [⟨⟨"Self-Service", 2⟩⟩] ⟨⟨"Self-Service", 1⟩⟩
    rfl rfl (by decide)

/-- C8: `find_link` scans the page's hyperlink elements in order and
    returns the first whose visible text case-insensitively equals the
    name; when no hyperlink matches it returns `none` rather than
    raising. -/
theorem find_link_first_match
    (links pre post : List El) (l : El) (name : String) :
    ((∀ u ∈ links, pyLower u.text ≠ pyLower name) →
      find_link links name = none)
    ∧ (links = pre ++ l :: post → pyLower l.text = pyLower name →
        (∀ u ∈ pre, pyLower u.text ≠ pyLower name) →
        find_link links name = some l) := by
  constructor
  · intro hnone
    unfold find_link
    rw [List.find?_eq_none]
    intro x hx
    simpa using hnone x hx
  · intro h hl hpre
    unfold find_link
    subst h
    rw [List.find?_append]
    have h1 : pre.find? (fun u => pyLower u.text == pyLower name)
        = none := by
      rw [List.find?_eq_none]
      intro x hx
      simpa using hpre x hx
    have h2 : (l :: post).find? (fun u => pyLower u.text == pyLower name)
        = some l :=
      List.find?_cons_of_pos _ (by simpa using hl)
    rw [h1, h2]
    rfl

/-- Witness for C8: a non-matching page yields `none` without raising, and
    a matching link is found case-insensitively past non-matching ones. -/
theorem find_link_first_match_witness :
    find_link [⟨"Other Link", 0⟩] "husky card account balances" = none
    ∧ find_link [⟨"Other Link", 0⟩, ⟨"HUSKY CARD ACCOUNT BALANCES", 1⟩]
        "Husky Card Account Balances"
      = some ⟨"HUSKY CARD ACCOUNT BALANCES", 1⟩ :=
  ⟨(find_link_first_match [⟨"Other Link", 0⟩] [] [] ⟨"", 0⟩
      "husky card account balances").1 (by decide),
   (find_link_first_match
      [⟨"Other Link", 0⟩, ⟨"HUSKY CARD ACCOUNT BALANCES", 1⟩]
      [⟨"Other Link", 0⟩] [] ⟨"HUSKY CARD ACCOUNT BALANCES", 1⟩
      "Husky Card Account Balances").2 rfl (by decide) (by decide)⟩

/-- C7: in `get_self_service_sections` the second family's labels are
    title-cased and, for any label present in both families, the merged
    mapping holds the second family's entry. -/
theorem get_self_service_sections_precedence
    (s1 s2 : List El) (k : String) (e : El)
    (h : dictOf (s2.map fun e => (titleCase e.text, e)) k = some e) :
    get_self_service_sections s1 s2 k = some e := by
  unfold dictOf at h
  unfold get_self_service_sections dictOf
  rw [List.reverse_append, List.find?_append]
  cases hfb : (s2.map fun e => (titleCase e.text, e)).reverse.find?
      (fun p => p.1 == k) with
  | none => rw [hfb] at h; simp at h
  | some p =>
    rw [hfb] at h
    simpa using h

/-- Witness for C7: family-1 `{Foo ↦ X}`, family-2 `{FOO ↦ Y}` (title-cased
    to `Foo`): the merged mapping's `Foo` entry is `Y`. -/
theorem get_self_service_sections_precedence_witness :
    get_self_service_sections [⟨"Foo", 0⟩] [⟨"FOO", 1⟩] "Foo"
      = some ⟨"FOO", 1⟩ :=
  get_self_service_sections_precedence [⟨"Foo", 0⟩] [⟨"FOO", 1⟩]
    "Foo" ⟨"FOO", 1⟩ rfl

/-! ## Claim theorems for the credential loader -/

/-- C6: on a path bound to a file with exactly two lines,
    `get_login_credentials` returns the pair of lines with surrounding
    whitespace stripped; on a path bound to no file it fails with the
    existence-precondition error. -/
theorem get_login_credentials_spec (fs : String → Option String)
    (path missing content l1 l2 : String)
    (hfs : fs path = some content)
    (hlines : readlines content = [l1, l2])
    (hmiss : fs missing = none) :
    get_login_credentials fs path = .ok (pyStrip l1, pyStrip l2)
    ∧ get_login_credentials fs missing
        = .error (missing ++ " does not exist!") := by
  constructor
  · simp only [get_login_credentials, hfs, hlines]
  · simp only [get_login_credentials, hmiss]

/-- Witness for C6 at the spec's example file `alice\npassword1\n`. -/
theorem get_login_credentials_spec_witness :
    get_login_credentials
        (fun p => if p = "creds.txt" then some "alice\npassword1\n" else none)
        "creds.txt"
      = .ok ("alice", "password1")
    ∧ get_login_credentials
        (fun p => if p = "creds.txt" then some "alice\npassword1\n" else none)
        "missing.txt"
      = .error "missing.txt does not exist!" := by
  have h := get_login_credentials_spec
    (fun p => if p = "creds.txt" then some "alice\npassword1\n" else none)
    "creds.txt" "missing.txt" "alice\npassword1\n" "alice\n" "password1\n"
    rfl rfl rfl
  exact ⟨h.1.trans rfl, h.2.trans rfl⟩

/-! ## Claim theorems for the table scraper -/

/-- C2 (counterexample): on the odd-length content-cell sequence
    `[A, 1, B]` the scraper does not produce `{A: 1, B: ⟨marker⟩}` — it
    crashes: `grouper` fills the missing slot with `None` and the dict
    comprehension's `v.text` on that `None` raises. -/
theorem get_balance_data_odd_cex :
    get_balance_data
        ⟨"myNEU: View HuskyCard Balances",
         [⟨[⟨"Title", 0⟩], [⟨[⟨"A", 1⟩, ⟨"1", 2⟩, ⟨"B", 3⟩]⟩]⟩]⟩
      = .error "AttributeError: NoneType has no attribute text" := rfl

/-- C2 (amended): for a titled blockquote holding one table,
    `get_balance_data` pairs the content cells two at a time in document
    order into a label-to-value mapping when their number is even, and
    raises an `AttributeError` (from `.text` on the `None` fill value) on
    an odd-length sequence, rather than producing a placeholder entry. -/
theorem get_balance_data_pairing (ti : String) (tEl : El) (cells : List El) :
    (cells.length % 2 = 0 →
      get_balance_data ⟨ti, [⟨[tEl], [⟨cells⟩]⟩]⟩
        = .ok (pairUpTexts cells))
    ∧ (cells.length % 2 = 1 →
      get_balance_data ⟨ti, [⟨[tEl], [⟨cells⟩]⟩]⟩
        = .error "AttributeError: NoneType has no attribute text") := by
  constructor
  · intro h
    have htc := (tableContents_parity cells).1 h
    simp [get_balance_data, scanBlockquotes, scanTables, htc]
  · intro h
    have htc := (tableContents_parity cells).2 h
    simp [get_balance_data, scanBlockquotes, scanTables, htc]

/-- Witness for amended C2: `[A, 1, B, 2, C, 3]` yields
    `{A: 1, B: 2, C: 3}` and `[A, 1, B]` raises. -/
theorem get_balance_data_pairing_witness :
    get_balance_data
        ⟨"t", [⟨[⟨"Title", 0⟩],
          [⟨[⟨"A", 1⟩, ⟨"1", 2⟩, ⟨"B", 3⟩, ⟨"2", 4⟩, ⟨"C", 5⟩,
            ⟨"3", 6⟩]⟩]⟩]⟩
      = .ok [("A", "1"), ("B", "2"), ("C", "3")]
    ∧ get_balance_data
        ⟨"t", [⟨[⟨"Title", 0⟩], [⟨[⟨"A", 1⟩, ⟨"1", 2⟩, ⟨"B", 7⟩]⟩]⟩]⟩
      = .error "AttributeError: NoneType has no attribute text" :=
  ⟨((get_balance_data_pairing "t" ⟨"Title", 0⟩
      [⟨"A", 1⟩, ⟨"1", 2⟩, ⟨"B", 3⟩, ⟨"2", 4⟩, ⟨"C", 5⟩, ⟨"3", 6⟩]).1
      (by decide)).trans rfl,
   (get_balance_data_pairing "t" ⟨"Title", 0⟩
      [⟨"A", 1⟩, ⟨"1", 2⟩, ⟨"B", 7⟩]).2 (by decide)⟩

/-- C9: `get_dining_dollars` fails fatally with a descriptive message
    whenever the page title is not the expected balance-page title; under
    that precondition, with the scraped mapping available, it returns the
    value mapped to the fixed field label `Spring 15 Meal Plan`, or `none`
    without raising when that label is absent. -/
theorem get_dining_dollars_spec (d : Driver) (m : List (String × String)) :
    (d.title ≠ "myNEU: View HuskyCard Balances" →
      get_dining_dollars d
        = .error "You need to be on the Husky Account Balance Page!")
    ∧ (d.title = "myNEU: View HuskyCard Balances" →
      get_balance_data d = .ok m →
      get_dining_dollars d = .ok (dictOf m "Spring 15 Meal Plan")) := by
  constructor
  · intro h
    simp [get_dining_dollars, h]
  · intro h hm
    simp [get_dining_dollars, h, hm]

/-- Witness for C9: a wrong title raises the assertion message; on the
    right title the fixed label's value is returned when present and
    `none` is returned, without raising, when absent. -/
theorem get_dining_dollars_spec_witness :
    get_dining_dollars ⟨"wrong page", []⟩
      = .error "You need to be on the Husky Account Balance Page!"
    ∧ get_dining_dollars ⟨"myNEU: View HuskyCard Balances", []⟩ = .ok none
    ∧ get_dining_dollars
        ⟨"myNEU: View HuskyCard Balances",
         [⟨[⟨"Title", 0⟩],
           [⟨[⟨"Spring 15 Meal Plan", 1⟩, ⟨"42.00", 2⟩]⟩]⟩]⟩
      = .ok (some "42.00") :=
  ⟨(get_dining_dollars_spec ⟨"wrong page", []⟩ []).1 (by decide),
   ((get_dining_dollars_spec ⟨"myNEU: View HuskyCard Balances", []⟩ []).2
      rfl rfl).trans rfl,
   ((get_dining_dollars_spec
      ⟨"myNEU: View HuskyCard Balances",
       [⟨[⟨"Title", 0⟩], [⟨[⟨"Spring 15 Meal Plan", 1⟩, ⟨"42.00", 2⟩]⟩]⟩]⟩
      [("Spring 15 Meal Plan", "42.00")]).2 rfl rfl).trans rfl⟩

end Helper
